import Mathlib

/-!
Verification of the book-rental service in src/api.py.

The service keeps two in-memory tables (Python dicts): a catalog mapping
ISBN to book record and a ledger mapping rental identifier to rental
record.  We embed the dicts as association lists with Python-dict
semantics: lookup finds the first binding, update replaces the value in
place, and inserting a fresh key appends at the end (insertion order is
preserved).  Machine integers are Python ints, embedded as Int.  The
current time (datetime.now) and the generated uuid are passed as explicit
arguments.  An HTTPException is embedded as a status code plus detail
string; a handler returns the pair of its HTTP outcome and the state of
the two tables after the handler finished (mutations made before a raise
would be visible there, mirroring Python exceptions over global state).
-/

namespace LibraryAPI

/-- Python-dict lookup on an association list: value at the first
occurrence of the key. -/
def getMap {β : Type} : List (String × β) → String → Option β
  | [], _ => none
  | (k, v) :: rest, k0 => if k = k0 then some v else getMap rest k0

/-- Python-dict assignment: replace the value at the first occurrence of
the key, or append a fresh binding at the end. -/
def setMap {β : Type} : List (String × β) → String → β → List (String × β)
  | [], k0, v0 => [(k0, v0)]
  | (k, v) :: rest, k0, v0 =>
      if k = k0 then (k0, v0) :: rest else (k, v) :: setMap rest k0 v0

/-- The values view of a dict, in insertion order. -/
def valuesMap {β : Type} (m : List (String × β)) : List β :=
  m.map Prod.snd

/-- Book record (class Book in src/api.py; the catalog stores one per
ISBN). -/
structure Book where
  isbn : String
  title : String
  author : String
  published_year : Option Int
  total_copies : Int
  available_copies : Int
  description : Option String
deriving DecidableEq, Repr

/-- Rental record as built by rent_book.  The dict key "rental_id" is
never written by rent_book; we model the optional presence of that key
with an Option field. -/
structure Rental where
  user_id : String
  book_id : String
  rented_at : Nat
  returned_at : Option Nat
  rental_id : Option String
deriving DecidableEq, Repr

/-- The two global tables of src/api.py. -/
structure St where
  books : List (String × Book)
  rentals : List (String × Rental)
deriving DecidableEq, Repr

/-- HTTPException payload: status code and detail message. -/
structure HTTPError where
  status_code : Nat
  detail : String
deriving DecidableEq, Repr

/-- raise HTTPException(status_code=404, ...). -/
def notFound (d : String) : HTTPError := ⟨404, d⟩

/-- raise HTTPException(status_code=400, ...). -/
def invalidState (d : String) : HTTPError := ⟨400, d⟩

/-- raise HTTPException(status_code=403, ...). -/
def forbidden (d : String) : HTTPError := ⟨403, d⟩

/-- Response of a successful rent or return: message, rental_id, book. -/
structure RentalResp where
  message : String
  rental_id : String
  book : Book
deriving DecidableEq, Repr

/-- Equality of HTTP outcomes is decidable, so concrete runs can be
checked by evaluation. -/
instance {ε α : Type} [DecidableEq ε] [DecidableEq α] : DecidableEq (Except ε α) := fun x y =>
  match x, y with
  | .ok a, .ok b =>
    if h : a = b then .isTrue (h ▸ rfl) else .isFalse (fun c => h (Except.ok.inj c))
  | .error a, .error b =>
    if h : a = b then .isTrue (h ▸ rfl) else .isFalse (fun c => h (Except.error.inj c))
  | .ok _, .error _ => .isFalse (fun c => Except.noConfusion c)
  | .error _, .ok _ => .isFalse (fun c => Except.noConfusion c)

/-- The generator expression inside rent_book: does some rental in the
ledger belong to this user, reference this book, and have a null return
timestamp? -/
def user_has_book (rentals : List (String × Rental)) (user_id book_id : String) : Bool :=
  (valuesMap rentals).any fun rental =>
    rental.user_id = user_id ∧ rental.book_id = book_id ∧ rental.returned_at = none

/-- POST /v1/books/{book_id}/rent (rent_book in src/api.py).  `rid` is
the uuid4 the handler generates and `now` the current time. -/
def rent_book (s : St) (book_id user_id : String) (rid : String) (now : Nat) :
    Except HTTPError RentalResp × St :=
  match getMap s.books book_id with
  | none => (.error (notFound "Book was not found"), s)
  | some book =>
    if book.available_copies ≤ 0 then
      (.error (invalidState "There are no copies of this book available for rent"), s)
    else if user_has_book s.rentals user_id book_id then
      (.error (invalidState "Book already rented by this user"), s)
    else
      let newRental : Rental :=
        { user_id := user_id, book_id := book_id, rented_at := now
          returned_at := none, rental_id := none }
      let rentals1 := setMap s.rentals rid newRental
      let book1 := { book with available_copies := book.available_copies - 1 }
      let books1 := setMap s.books book_id book1
      (.ok { message := "Book rented successfully", rental_id := rid, book := book1 },
       { books := books1, rentals := rentals1 })

/-- POST /v1/rentals/{rental_id}/return (return_book in src/api.py). -/
def return_book (s : St) (rental_id user_id : String) (now : Nat) :
    Except HTTPError RentalResp × St :=
  match getMap s.rentals rental_id with
  | none => (.error (notFound "Rental not found"), s)
  | some rental =>
    if rental.user_id ≠ user_id then
      (.error (forbidden "Unauthorized: This rental belongs to another user"), s)
    else if rental.returned_at ≠ none then
      (.error (invalidState "Book already returned"), s)
    else
      match getMap s.books rental.book_id with
      | none => (.error (notFound "Book not found"), s)
      | some book =>
        let rental1 := { rental with returned_at := some now }
        let rentals1 := setMap s.rentals rental_id rental1
        let book1 := { book with available_copies := book.available_copies + 1 }
        let books1 := setMap s.books rental.book_id book1
        (.ok { message := "Book returned successfully", rental_id := rental_id, book := book1 },
         { books := books1, rentals := rentals1 })

/-- An entry of the list returned by list_user_books: a copy of the book
record with "rental_id" and "rented_at" keys added. -/
structure BookInfo where
  book : Book
  rental_id : Option String
  rented_at : Nat
deriving DecidableEq, Repr

/-- GET /v1/users/{user_id}/books (list_user_books in src/api.py): first
filter the outstanding rentals of the user, then look each book up,
silently skipping unresolvable book identifiers. -/
def list_user_books (s : St) (user_id : String) : List BookInfo :=
  let user_rentals :=
    (valuesMap s.rentals).filter fun rental =>
      rental.user_id = user_id ∧ rental.returned_at = none
  user_rentals.filterMap fun rental =>
    match getMap s.books rental.book_id with
    | some book =>
        some { book := book, rental_id := rental.rental_id, rented_at := rental.rented_at }
    | none => none

/-- GET /v1/books (list_books in src/api.py). -/
def list_books (s : St) : List Book :=
  valuesMap s.books

/-- GET /v1/books/{book_id} (display_details in src/api.py). -/
def display_details (s : St) (book_id : String) : Except HTTPError Book :=
  match getMap s.books book_id with
  | some book => .ok book
  | none => .error (notFound "Book was not found")

/-!
The catalog loader (load in src/api.py).  A raw source entry is a JSON
object; we model the keys load reads: "isbn", "totalCopies" (that exact
spelling) and "available_copies", the latter two possibly absent.  load
builds the dict keyed by isbn, then for each entry lacking
"available_copies" copies "totalCopies" into it; a missing "totalCopies"
there raises KeyError.  Any exception — failure to open or parse the file
(modelled by the input being none) or the KeyError — is caught and leaves
the catalog empty.
-/

/-- A raw book entry of books.json, restricted to the keys load reads. -/
structure RawBook where
  isbn : String
  totalCopies : Option Int
  available_copies : Option Int
deriving DecidableEq, Repr

/-- The dict comprehension in load: key each entry by its isbn (a later
duplicate overwrites the value, keeping the first position, as in a
Python dict). -/
def buildBooks (bs : List RawBook) : List (String × RawBook) :=
  bs.foldl (fun m e => setMap m e.isbn e) []

/-- The normalization step of load for one entry: if "available_copies"
is absent, set it from "totalCopies"; none signals the KeyError raised
when "totalCopies" is absent too. -/
def normalizeBook (e : RawBook) : Option RawBook :=
  if e.available_copies.isSome then some e
  else
    match e.totalCopies with
    | some t => some { e with available_copies := some t }
    | none => none

/-- The for-loop of load over the whole catalog; none if any entry raises
KeyError. -/
def normalizeAll : List (String × RawBook) → Option (List (String × RawBook))
  | [] => some []
  | (k, e) :: rest =>
    match normalizeBook e, normalizeAll rest with
    | some e1, some rest1 => some ((k, e1) :: rest1)
    | _, _ => none

/-- load in src/api.py.  The input is the parsed "books" list of
books.json, or none when opening or parsing the file failed; the result
is the global books dict. -/
def load (input : Option (List RawBook)) : List (String × RawBook) :=
  match input with
  | none => []
  | some bs =>
    match normalizeAll (buildBooks bs) with
    | some m => m
    | none => []

/-!
Sequences of operations.  A request is one of the five endpoints with its
inputs; running it applies the handler to the current state and keeps the
state the handler left behind, whether it succeeded or raised.
-/

/-- One incoming request with all its inputs (uuid and clock included). -/
inductive Op where
  | listBooks : Op
  | displayDetails (book_id : String) : Op
  | rentBook (book_id user_id rid : String) (now : Nat) : Op
  | listUserBooks (user_id : String) : Op
  | returnBook (rental_id user_id : String) (now : Nat) : Op
deriving DecidableEq, Repr

/-- The state after handling one request. -/
def applyOp (s : St) : Op → St
  | .listBooks => s
  | .displayDetails _ => s
  | .rentBook book_id user_id rid now => (rent_book s book_id user_id rid now).2
  | .listUserBooks _ => s
  | .returnBook rental_id user_id now => (return_book s rental_id user_id now).2

/-- The state after handling a sequence of requests. -/
def run (s : St) (ops : List Op) : St :=
  ops.foldl applyOp s

/-- A well-formed initial state: the ledger is empty and every catalog
entry has 0 <= available_copies <= total_copies. -/
def WellFormedInit (s : St) : Prop :=
  s.rentals = [] ∧
  ∀ k b, getMap s.books k = some b →
    0 ≤ b.available_copies ∧ b.available_copies ≤ b.total_copies

/-- The contribution of one rental record to the number of outstanding
rentals of a given book: 1 when it references the book and has a null
return timestamp, else 0. -/
def cntR (r : Rental) (bk : String) : Int :=
  if r.book_id = bk ∧ r.returned_at = none then 1 else 0

/-- Number of outstanding rentals of a book in the ledger. -/
def outCount : List (String × Rental) → String → Int
  | [], _ => 0
  | (_, r) :: rest, bk => cntR r bk + outCount rest bk

/-- The inductive invariant of the two tables: every catalog entry has a
nonnegative available-copy count, and available copies plus outstanding
rentals never exceed total copies. -/
def Inv (s : St) : Prop :=
  ∀ k b, getMap s.books k = some b →
    0 ≤ b.available_copies ∧ b.available_copies + outCount s.rentals k ≤ b.total_copies

/-!
Concrete states used by the scenario of section 8 of the spec and by the
witnesses: a catalog with the single book "123" holding two copies.
-/

/-- The book "123" of the section-8 scenario, total = available = 2. -/
def bk123 : Book :=
  { isbn := "123", title := "The Pragmatic Programmer", author := "Hunt",
    published_year := none, total_copies := 2, available_copies := 2,
    description := none }

/-- Initial state of the scenario: book "123", empty ledger. -/
def stScenario : St := { books := [("123", bk123)], rentals := [] }

/-- Scenario state after alice rents "123". -/
def stS1 : St := (rent_book stScenario "123" "alice" "ra1" 10).2

/-- Scenario state after bob also rents "123". -/
def stS2 : St := (rent_book stS1 "123" "bob" "rb1" 12).2

/-- Scenario state after alice returns her rental. -/
def stS3 : St := (return_book stS2 "ra1" "alice" 14).2

/-- Book of the corrupted-ledger example: every copy already counted
present, available = total = 1. -/
def bkC1 : Book :=
  { isbn := "c1", title := "C", author := "D", published_year := none,
    total_copies := 1, available_copies := 1, description := none }

/-- An outstanding rental of bkC1 held by eve. -/
def rC1 : Rental :=
  { user_id := "eve", book_id := "c1", rented_at := 0,
    returned_at := none, rental_id := none }

/-- A corrupted state: book "c1" already has available = total = 1 while
an outstanding rental for it sits in the ledger. -/
def stCorrupt : St :=
  { books := [("c1", bkC1)], rentals := [("rc1", rC1)] }

/-- A source entry with only a total-copy count; the loader must fill in
available_copies. -/
def rbGood : RawBook := { isbn := "a1", totalCopies := some 4, available_copies := none }

/-- A source entry that explicitly supplies available_copies. -/
def rbExplicit : RawBook := { isbn := "a2", totalCopies := some 5, available_copies := some 2 }

/-- A malformed source entry with neither count; normalizing it raises
KeyError. -/
def rbBad : RawBook := { isbn := "a3", totalCopies := none, available_copies := none }

/-!
Lemmas about the dict operations.
-/

theorem getMap_setMap_self {β : Type} (m : List (String × β)) (k : String) (v : β) :
    getMap (setMap m k v) k = some v := by
  induction m with
  | nil => simp [setMap, getMap]
  | cons p rest ih =>
    obtain ⟨k1, v1⟩ := p
    by_cases h : k1 = k
    · subst h; simp [setMap, getMap]
    · simp [setMap, getMap, h, ih]

theorem getMap_setMap_ne {β : Type} (m : List (String × β)) (k k0 : String) (v : β)
    (h : k ≠ k0) : getMap (setMap m k v) k0 = getMap m k0 := by
  induction m with
  | nil => simp [setMap, getMap, h]
  | cons p rest ih =>
    obtain ⟨k1, v1⟩ := p
    by_cases h1 : k1 = k
    · subst h1; simp [setMap, getMap, h]
    · simp [setMap, getMap, h1, ih]

theorem setMap_of_getMap_none {β : Type} (m : List (String × β)) (k : String) (v : β)
    (h : getMap m k = none) : setMap m k v = m ++ [(k, v)] := by
  induction m with
  | nil => simp [setMap]
  | cons p rest ih =>
    obtain ⟨k1, v1⟩ := p
    by_cases h1 : k1 = k
    · subst h1; simp [getMap] at h
    · simp [getMap, h1] at h
      simp [setMap, h1, ih h]

/-- Scenario of section 8: starting from book "123" with two copies and
an empty ledger, alice rents (1 copy left), alice renting again is
InvalidState, bob rents (0 left), carol renting is InvalidState for lack
of copies, returning alice's rental succeeds (1 left), and returning it
again is InvalidState. -/
theorem C9_scenario :
    (rent_book stScenario "123" "alice" "ra1" 10).1 =
      .ok ⟨"Book rented successfully", "ra1", { bk123 with available_copies := 1 }⟩ ∧
    getMap stS1.books "123" = some { bk123 with available_copies := 1 } ∧
    (rent_book stS1 "123" "alice" "ra2" 11).1 =
      .error (invalidState "Book already rented by this user") ∧
    (rent_book stS1 "123" "bob" "rb1" 12).1 =
      .ok ⟨"Book rented successfully", "rb1", { bk123 with available_copies := 0 }⟩ ∧
    getMap stS2.books "123" = some { bk123 with available_copies := 0 } ∧
    (rent_book stS2 "123" "carol" "rc1" 13).1 =
      .error (invalidState "There are no copies of this book available for rent") ∧
    (return_book stS2 "ra1" "alice" 14).1 =
      .ok ⟨"Book returned successfully", "ra1", { bk123 with available_copies := 1 }⟩ ∧
    getMap stS3.books "123" = some { bk123 with available_copies := 1 } ∧
    (return_book stS3 "ra1" "alice" 15).1 =
      .error (invalidState "Book already returned") := by
  decide

/-- C1 fails as stated: after alice's successful return of rental "ra1",
a second return attempt by "bob" fails with Forbidden (403), not
InvalidState (400). -/
theorem C1_counterexample :
    (return_book stS2 "ra1" "alice" 14).1 =
      .ok ⟨"Book returned successfully", "ra1", { bk123 with available_copies := 1 }⟩ ∧
    (return_book stS3 "ra1" "bob" 15).1 =
      .error (forbidden "Unauthorized: This rental belongs to another user") ∧
    (return_book stS3 "ra1" "bob" 15).1 ≠
      .error (invalidState "Book already returned") := by
  decide

/-- C1 amended: after a successful return, any second return attempt for
that rental identifier fails and changes nothing — with InvalidState when
the caller supplies the rental's own user identifier, and with Forbidden
when any other user identifier is supplied. -/
theorem C1_second_return_fails :
    ∀ (s : St) (rid u : String) (t : Nat) (resp : RentalResp) (s1 : St),
      return_book s rid u t = (.ok resp, s1) →
      ∀ (u1 : String) (t1 : Nat),
        (return_book s1 rid u1 t1).1 =
          .error (if u1 = u then invalidState "Book already returned"
                  else forbidden "Unauthorized: This rental belongs to another user") ∧
        (return_book s1 rid u1 t1).2 = s1 := by
  intro s rid u t resp s1 hsucc u1 t1
  cases hr : getMap s.rentals rid with
  | none => simp [return_book, hr] at hsucc
  | some r =>
    by_cases hu : r.user_id = u
    · subst hu
      cases hret : r.returned_at with
      | some v => simp [return_book, hr, hret] at hsucc
      | none =>
        cases hb : getMap s.books r.book_id with
        | none => simp [return_book, hr, hret, hb] at hsucc
        | some b =>
          simp [return_book, hr, hret, hb] at hsucc
          obtain ⟨-, h2⟩ := hsucc
          subst h2
          have hr1 : getMap (setMap s.rentals rid { r with returned_at := some t })
              rid = some { r with returned_at := some t } := getMap_setMap_self _ _ _
          by_cases hu1 : u1 = r.user_id
          · subst hu1
            simp [return_book, hr1]
          · have hne : ({ r with returned_at := some t } : Rental).user_id ≠ u1 := by
              simpa using fun h => hu1 h.symm
            simp [return_book, hr1, hne, if_neg hu1]
    · simp [return_book, hr, hu] at hsucc

/-- Witness for C1: instantiated at alice's successful return of "ra1",
a second attempt by "bob" fails Forbidden and leaves the state alone. -/
theorem C1_second_return_fails_witness :
    return_book stS2 "ra1" "alice" 14 =
      (.ok ⟨"Book returned successfully", "ra1", { bk123 with available_copies := 1 }⟩, stS3) ∧
    ((return_book stS3 "ra1" "bob" 15).1 =
        .error (if "bob" = "alice" then invalidState "Book already returned"
                else forbidden "Unauthorized: This rental belongs to another user") ∧
      (return_book stS3 "ra1" "bob" 15).2 = stS3) :=
  ⟨by decide,
   C1_second_return_fails stS2 "ra1" "alice" 14
     ⟨"Book returned successfully", "ra1", { bk123 with available_copies := 1 }⟩ stS3
     (by decide) "bob" 15⟩

/-- C2: rent_book checks its preconditions in order — absent book fails
NotFound (404); else an available-copy count not above zero fails
InvalidState (400, no copies); else an outstanding rental for the exact
(user, book) pair fails InvalidState (400, already rented); else the
request succeeds.  Each failure leaves the state unchanged. -/
theorem C2_rent_precondition_order :
    ∀ (s : St) (bid uid rid : String) (t : Nat),
      (getMap s.books bid = none →
        rent_book s bid uid rid t = (.error (notFound "Book was not found"), s)) ∧
      (∀ b, getMap s.books bid = some b → b.available_copies ≤ 0 →
        rent_book s bid uid rid t =
          (.error (invalidState "There are no copies of this book available for rent"), s)) ∧
      (∀ b, getMap s.books bid = some b → 0 < b.available_copies →
        user_has_book s.rentals uid bid = true →
        rent_book s bid uid rid t =
          (.error (invalidState "Book already rented by this user"), s)) ∧
      (∀ b, getMap s.books bid = some b → 0 < b.available_copies →
        user_has_book s.rentals uid bid = false →
        ∃ resp s1, rent_book s bid uid rid t = (.ok resp, s1)) := by
  intro s bid uid rid t
  refine ⟨fun h => by simp [rent_book, h], fun b hb hav => ?_, fun b hb hav huh => ?_,
    fun b hb hav huh => ?_⟩
  · simp [rent_book, hb, hav]
  · simp [rent_book, hb, not_le.mpr hav, huh]
  · refine ⟨⟨"Book rented successfully", rid, { b with available_copies := b.available_copies - 1 }⟩,
      ⟨setMap s.books bid { b with available_copies := b.available_copies - 1 },
       setMap s.rentals rid ⟨uid, bid, t, none, none⟩⟩, ?_⟩
    simp only [rent_book, hb]
    rw [if_neg (not_le.mpr hav), if_neg (by simp [huh])]

/-- Witness for C2: all four branches exercised on concrete states — a
missing book, the sold-out book of stS2, alice renting "123" twice in
stS1, and carol renting in the fresh scenario state. -/
theorem C2_rent_precondition_order_witness :
    rent_book stScenario "999" "alice" "rx" 1 = (.error (notFound "Book was not found"), stScenario) ∧
    rent_book stS2 "123" "carol" "rc1" 13 =
      (.error (invalidState "There are no copies of this book available for rent"), stS2) ∧
    rent_book stS1 "123" "alice" "ra2" 11 =
      (.error (invalidState "Book already rented by this user"), stS1) ∧
    ∃ resp s1, rent_book stScenario "123" "carol" "rc9" 2 = (.ok resp, s1) :=
  ⟨(C2_rent_precondition_order stScenario "999" "alice" "rx" 1).1 (by decide),
   (C2_rent_precondition_order stS2 "123" "carol" "rc1" 13).2.1
     { bk123 with available_copies := 0 } (by decide) (by decide),
   (C2_rent_precondition_order stS1 "123" "alice" "ra2" 11).2.2.1
     { bk123 with available_copies := 1 } (by decide) (by decide) (by decide),
   (C2_rent_precondition_order stScenario "123" "carol" "rc9" 2).2.2.2
     bk123 (by decide) (by decide) (by decide)⟩

/-- C3: when the three rent preconditions hold and the generated uuid is
fresh, rent_book decrements the book's available-copy count by one,
appends exactly one new rental record (given user and book identifiers,
the current time as rented-at, a null return timestamp), changes no other
catalog or ledger entry, and returns the confirmation message, the new
rental identifier and the updated book record. -/
theorem C3_rent_success_effect :
    ∀ (s : St) (bid uid rid : String) (t : Nat) (b : Book),
      getMap s.books bid = some b →
      0 < b.available_copies →
      user_has_book s.rentals uid bid = false →
      getMap s.rentals rid = none →
      rent_book s bid uid rid t =
        (.ok { message := "Book rented successfully", rental_id := rid,
               book := { b with available_copies := b.available_copies - 1 } },
         { books := setMap s.books bid { b with available_copies := b.available_copies - 1 },
           rentals := s.rentals ++ [(rid, ⟨uid, bid, t, none, none⟩)] }) ∧
      getMap (rent_book s bid uid rid t).2.books bid =
        some { b with available_copies := b.available_copies - 1 } ∧
      getMap (rent_book s bid uid rid t).2.rentals rid = some ⟨uid, bid, t, none, none⟩ ∧
      (∀ k, k ≠ bid → getMap (rent_book s bid uid rid t).2.books k = getMap s.books k) ∧
      (∀ k, k ≠ rid → getMap (rent_book s bid uid rid t).2.rentals k = getMap s.rentals k) := by
  intro s bid uid rid t b hb hav huh hfresh
  have hmain : rent_book s bid uid rid t =
      (.ok { message := "Book rented successfully", rental_id := rid,
             book := { b with available_copies := b.available_copies - 1 } },
       { books := setMap s.books bid { b with available_copies := b.available_copies - 1 },
         rentals := setMap s.rentals rid ⟨uid, bid, t, none, none⟩ }) := by
    simp only [rent_book, hb]
    rw [if_neg (not_le.mpr hav), if_neg (by simp [huh])]
  refine ⟨?_, ?_, ?_, ?_, ?_⟩
  · rw [hmain, setMap_of_getMap_none _ _ _ hfresh]
  · rw [hmain]; exact getMap_setMap_self _ _ _
  · rw [hmain]; exact getMap_setMap_self _ _ _
  · intro k hk; rw [hmain]; exact getMap_setMap_ne _ _ _ _ (Ne.symm hk)
  · intro k hk; rw [hmain]; exact getMap_setMap_ne _ _ _ _ (Ne.symm hk)

/-- Witness for C3: alice's first rent in the scenario state. -/
theorem C3_rent_success_effect_witness :
    rent_book stScenario "123" "alice" "ra1" 10 =
      (.ok { message := "Book rented successfully", rental_id := "ra1",
             book := { bk123 with available_copies := bk123.available_copies - 1 } },
       { books := setMap stScenario.books "123"
           { bk123 with available_copies := bk123.available_copies - 1 },
         rentals := stScenario.rentals ++ [("ra1", ⟨"alice", "123", 10, none, none⟩)] }) :=
  (C3_rent_success_effect stScenario "123" "alice" "ra1" 10 bk123
    (by decide) (by decide) (by decide) (by decide)).1

/-- C4: when the four return preconditions hold, return_book sets the
rental's return timestamp to the current time and increments the book's
available-copy count by one, with no check against total_copies, and
returns the confirmation message, the rental identifier and the updated
book record. -/
theorem C4_return_success_effect :
    ∀ (s : St) (rid uid : String) (t : Nat) (r : Rental) (b : Book),
      getMap s.rentals rid = some r →
      r.user_id = uid →
      r.returned_at = none →
      getMap s.books r.book_id = some b →
      return_book s rid uid t =
        (.ok { message := "Book returned successfully", rental_id := rid,
               book := { b with available_copies := b.available_copies + 1 } },
         { books := setMap s.books r.book_id
             { b with available_copies := b.available_copies + 1 },
           rentals := setMap s.rentals rid { r with returned_at := some t } }) ∧
      getMap (return_book s rid uid t).2.rentals rid = some { r with returned_at := some t } ∧
      getMap (return_book s rid uid t).2.books r.book_id =
        some { b with available_copies := b.available_copies + 1 } := by
  intro s rid uid t r b hr hu hret hb
  subst hu
  have hmain : return_book s rid r.user_id t =
      (.ok { message := "Book returned successfully", rental_id := rid,
             book := { b with available_copies := b.available_copies + 1 } },
       { books := setMap s.books r.book_id
           { b with available_copies := b.available_copies + 1 },
         rentals := setMap s.rentals rid { r with returned_at := some t } }) := by
    simp [return_book, hr, hret, hb]
  refine ⟨hmain, ?_, ?_⟩
  · rw [hmain]; exact getMap_setMap_self _ _ _
  · rw [hmain]; exact getMap_setMap_self _ _ _

/-- Witness for C4: returning eve's rental in the corrupted state pushes
the book's available-copy count to 2, strictly above its total of 1. -/
theorem C4_return_success_effect_witness :
    getMap (return_book stCorrupt "rc1" "eve" 5).2.books "c1" =
      some { bkC1 with available_copies := bkC1.available_copies + 1 } ∧
    ({ bkC1 with available_copies := bkC1.available_copies + 1 }).total_copies <
      ({ bkC1 with available_copies := bkC1.available_copies + 1 }).available_copies :=
  ⟨(C4_return_success_effect stCorrupt "rc1" "eve" 5 rC1 bkC1
      (by decide) (by decide) (by decide) (by decide)).2.2,
   by decide⟩

/-- C5: every failing rent or return leaves both tables exactly as they
were; in particular a return with a mismatched user identifier fails
Forbidden (403) and changes nothing. -/
theorem C5_error_atomicity :
    ∀ (s : St) (bid uid rid : String) (t : Nat) (rid2 uid2 : String) (t2 : Nat),
      (∀ e, (rent_book s bid uid rid t).1 = .error e → (rent_book s bid uid rid t).2 = s) ∧
      (∀ e, (return_book s rid2 uid2 t2).1 = .error e → (return_book s rid2 uid2 t2).2 = s) ∧
      (∀ r, getMap s.rentals rid2 = some r → r.user_id ≠ uid2 →
        return_book s rid2 uid2 t2 =
          (.error (forbidden "Unauthorized: This rental belongs to another user"), s)) := by
  intro s bid uid rid t rid2 uid2 t2
  refine ⟨?_, ?_, ?_⟩
  · intro e h
    cases hb : getMap s.books bid with
    | none => simp [rent_book, hb]
    | some b =>
      by_cases hav : b.available_copies ≤ 0
      · simp [rent_book, hb, hav]
      · by_cases huh : user_has_book s.rentals uid bid = true
        · simp [rent_book, hb, hav, huh]
        · simp [rent_book, hb, hav, huh] at h
  · intro e h
    cases hr : getMap s.rentals rid2 with
    | none => simp [return_book, hr]
    | some r =>
      by_cases hu : r.user_id = uid2
      · by_cases hret : r.returned_at = none
        · cases hb : getMap s.books r.book_id with
          | none => simp [return_book, hr, hu, hret, hb]
          | some b => simp [return_book, hr, hu, hret, hb] at h
        · simp [return_book, hr, hu, hret]
      · simp [return_book, hr, hu]
  · intro r hr hne
    simp [return_book, hr, hne]

/-- Witness for C5: carol's failed rent in stS2, a repeated return of
"ra1" in stS3, and bob's Forbidden return of alice's rental. -/
theorem C5_error_atomicity_witness :
    (rent_book stS2 "123" "carol" "rc1" 13).2 = stS2 ∧
    (return_book stS3 "ra1" "alice" 15).2 = stS3 ∧
    return_book stS3 "ra1" "bob" 15 =
      (.error (forbidden "Unauthorized: This rental belongs to another user"), stS3) :=
  ⟨(C5_error_atomicity stS2 "123" "carol" "rc1" 13 "x" "x" 0).1
     (invalidState "There are no copies of this book available for rent") (by decide),
   (C5_error_atomicity stS3 "x" "x" "x" 0 "ra1" "alice" 15).2.1
     (invalidState "Book already returned") (by decide),
   (C5_error_atomicity stS3 "x" "x" "x" 0 "ra1" "bob" 15).2.2
     ⟨"alice", "123", 10, some 14, none⟩ (by decide) (by decide)⟩

/-- Filtering then collecting is one pass over the list. -/
theorem filterMap_of_filter {α β : Type} (p : α → Bool) (f : α → Option β) (l : List α) :
    (l.filter p).filterMap f = l.filterMap (fun a => if p a then f a else none) := by
  induction l with
  | nil => rfl
  | cons a l ih =>
    by_cases h : p a
    · simp [List.filter_cons, h, List.filterMap_cons, ih]
    · simp [List.filter_cons, h, List.filterMap_cons, ih]

/-- One-pass characterization of list_user_books over a ledger values
list: each qualifying rental contributes its resolved book. -/
theorem lub_one_pass (books : List (String × Book)) (uid : String) (rs : List Rental) :
    (rs.filter (fun r => r.user_id = uid ∧ r.returned_at = none)).filterMap
        (fun rental =>
          match getMap books rental.book_id with
          | some book =>
              some ({ book := book, rental_id := rental.rental_id,
                      rented_at := rental.rented_at } : BookInfo)
          | none => none) =
      rs.filterMap (fun r =>
        if r.user_id = uid ∧ r.returned_at = none then
          (getMap books r.book_id).map
            (fun b => ({ book := b, rental_id := r.rental_id,
                         rented_at := r.rented_at } : BookInfo))
        else none) := by
  rw [filterMap_of_filter]
  apply List.filterMap_congr
  intro r _
  by_cases h : r.user_id = uid ∧ r.returned_at = none
  · simp only [h, if_pos h, decide_eq_true_eq, if_true]
    cases getMap books r.book_id <;> rfl
  · simp [h]

/-- Length of the one-pass collection: one entry per qualifying rental
whose book resolves. -/
theorem lub_length (books : List (String × Book)) (uid : String) (rs : List Rental) :
    (rs.filterMap (fun r =>
        if r.user_id = uid ∧ r.returned_at = none then
          (getMap books r.book_id).map
            (fun b => ({ book := b, rental_id := r.rental_id,
                         rented_at := r.rented_at } : BookInfo))
        else none)).length =
      (rs.filter (fun r =>
        r.user_id = uid ∧ r.returned_at = none ∧ (getMap books r.book_id).isSome)).length := by
  induction rs with
  | nil => rfl
  | cons r rs ih =>
    by_cases h : r.user_id = uid ∧ r.returned_at = none
    · cases hb : getMap books r.book_id with
      | none => simp [List.filterMap_cons, List.filter_cons, h, hb, ih]
      | some b => simp [List.filterMap_cons, List.filter_cons, h, hb, ih]
    · have : ¬(r.user_id = uid ∧ r.returned_at = none ∧ (getMap books r.book_id).isSome) := by
        intro hc; exact h ⟨hc.1, hc.2.1⟩
      simp [List.filterMap_cons, List.filter_cons, h, this, ih]

/-- C7: list_user_books never fails and only reads the tables; it
returns exactly one entry per outstanding rental of the user whose book
identifier resolves in the catalog (unresolvable ones silently skipped),
each entry being the book record annotated with the rental's rented-at
timestamp and its optional stored rental identifier; a user with no
outstanding rentals gets the empty list. -/
theorem C7_list_user_books_output :
    ∀ (s : St) (uid : String),
      list_user_books s uid =
        (valuesMap s.rentals).filterMap (fun r =>
          if r.user_id = uid ∧ r.returned_at = none then
            (getMap s.books r.book_id).map
              (fun b => { book := b, rental_id := r.rental_id, rented_at := r.rented_at })
          else none) ∧
      (list_user_books s uid).length =
        ((valuesMap s.rentals).filter (fun r =>
          r.user_id = uid ∧ r.returned_at = none ∧ (getMap s.books r.book_id).isSome)).length ∧
      ((∀ r ∈ valuesMap s.rentals, ¬(r.user_id = uid ∧ r.returned_at = none)) →
        list_user_books s uid = []) := by
  intro s uid
  have h1 := lub_one_pass s.books uid (valuesMap s.rentals)
  refine ⟨h1, ?_, ?_⟩
  · rw [show list_user_books s uid = _ from h1]
    exact lub_length s.books uid (valuesMap s.rentals)
  · intro hnone
    rw [show list_user_books s uid = _ from h1]
    rw [List.filterMap_eq_nil_iff]
    intro r hr
    simp [hnone r hr]

/-- Witness for C7: carol holds nothing in stS3, so her list is empty;
alice's list in stS1 has exactly one resolvable outstanding rental. -/
theorem C7_list_user_books_output_witness :
    list_user_books stS3 "carol" = [] ∧
    (list_user_books stS1 "alice").length =
      ((valuesMap stS1.rentals).filter (fun r =>
        r.user_id = "alice" ∧ r.returned_at = none ∧
          (getMap stS1.books r.book_id).isSome)).length :=
  ⟨(C7_list_user_books_output stS3 "carol").2.2 (by decide),
   (C7_list_user_books_output stS1 "alice").2.1⟩

/-- Per-entry normalization: the available-copy count ends up being the
explicitly supplied one, or else the entry's total-copy count; nothing
else of the entry changes. -/
theorem normalizeBook_spec (e b : RawBook) (h : normalizeBook e = some b) :
    b.available_copies = (match e.available_copies with
      | some a => some a
      | none => e.totalCopies) ∧
    b.totalCopies = e.totalCopies ∧ b.isbn = e.isbn := by
  unfold normalizeBook at h
  cases ha : e.available_copies with
  | some a =>
    rw [ha] at h
    simp at h
    subst h
    simp [ha]
  | none =>
    rw [ha] at h
    cases ht : e.totalCopies with
    | none => simp [ht] at h
    | some t =>
      simp [ht] at h
      subst h
      simp [ha, ht]

/-- Every entry of a normalized catalog is the normalization of the
entry at the same key of the raw catalog. -/
theorem normalizeAll_getMap (m m1 : List (String × RawBook))
    (hall : normalizeAll m = some m1) (k : String) (b : RawBook)
    (hget : getMap m1 k = some b) :
    ∃ e, getMap m k = some e ∧ normalizeBook e = some b := by
  induction m generalizing m1 with
  | nil =>
    simp [normalizeAll] at hall
    subst hall
    simp [getMap] at hget
  | cons p rest ih =>
    obtain ⟨k1, e⟩ := p
    cases hne : normalizeBook e with
    | none => simp [normalizeAll, hne] at hall
    | some e1 =>
      cases hrest : normalizeAll rest with
      | none => simp [normalizeAll, hne, hrest] at hall
      | some rest1 =>
        simp [normalizeAll, hne, hrest] at hall
        subst hall
        by_cases hk : k1 = k
        · subst hk
          simp [getMap] at hget
          subst hget
          exact ⟨e, by simp [getMap], hne⟩
        · simp [getMap, hk] at hget
          obtain ⟨e0, he0, hne0⟩ := ih rest1 hrest hget
          exact ⟨e0, by simp [getMap, hk, he0], hne0⟩

/-- C8: after catalog load every book's available-copy count is the one
explicitly supplied in its source entry, or else the entry's total-copy
count; and any load failure — unreadable source or an entry missing the
total-copy count it needs — leaves the catalog empty instead of failing
startup. -/
theorem C8_load_normalization :
    load none = [] ∧
    (∀ bs, normalizeAll (buildBooks bs) = none → load (some bs) = []) ∧
    (∀ bs k b, getMap (load (some bs)) k = some b →
      ∃ e, getMap (buildBooks bs) k = some e ∧
        b.available_copies = (match e.available_copies with
          | some a => some a
          | none => e.totalCopies) ∧
        b.totalCopies = e.totalCopies ∧ b.isbn = e.isbn) := by
  refine ⟨rfl, ?_, ?_⟩
  · intro bs h
    simp [load, h]
  · intro bs k b hget
    cases hall : normalizeAll (buildBooks bs) with
    | none => rw [load, hall] at hget; simp [getMap] at hget
    | some m1 =>
      rw [load, hall] at hget
      obtain ⟨e, he, hne⟩ := normalizeAll_getMap _ _ hall k b hget
      exact ⟨e, he, normalizeBook_spec e b hne⟩

/-- Witness for C8: a malformed entry empties the whole catalog, and a
loaded catalog with one defaulted and one explicit entry satisfies the
per-entry property at "a1". -/
theorem C8_load_normalization_witness :
    load (some [rbBad, rbGood]) = [] ∧
    (∃ e, getMap (buildBooks [rbGood, rbExplicit]) "a1" = some e ∧
      ({ rbGood with available_copies := some 4 } : RawBook).available_copies =
        (match e.available_copies with
          | some a => some a
          | none => e.totalCopies) ∧
      ({ rbGood with available_copies := some 4 } : RawBook).totalCopies = e.totalCopies ∧
      ({ rbGood with available_copies := some 4 } : RawBook).isbn = e.isbn) :=
  ⟨C8_load_normalization.2.1 [rbBad, rbGood] (by decide),
   C8_load_normalization.2.2 [rbGood, rbExplicit] "a1"
     { rbGood with available_copies := some 4 } (by decide)⟩

/-- C10: rent_book stores the new rental without any rental identifier
field — the identifier lives only in the ledger key and the response —
so in a ledger whose records all lack the field, every entry returned by
list_user_books carries a null rental identifier. -/
theorem C10_rental_id_absent :
    (∀ (s : St) (bid uid rid : String) (t : Nat) (resp : RentalResp) (s1 : St),
      rent_book s bid uid rid t = (.ok resp, s1) →
      getMap s1.rentals rid = some ⟨uid, bid, t, none, none⟩ ∧ resp.rental_id = rid) ∧
    (∀ (s : St) (uid : String),
      (∀ p ∈ s.rentals, (Prod.snd p).rental_id = none) →
      ∀ e ∈ list_user_books s uid, e.rental_id = none) := by
  constructor
  · intro s bid uid rid t resp s1 hok
    cases hb : getMap s.books bid with
    | none => simp [rent_book, hb] at hok
    | some b =>
      by_cases hav : b.available_copies ≤ 0
      · simp [rent_book, hb, hav] at hok
      · by_cases huh : user_has_book s.rentals uid bid = true
        · simp [rent_book, hb, hav, huh] at hok
        · simp [rent_book, hb, hav, huh] at hok
          obtain ⟨h1, h2⟩ := hok
          subst h2
          exact ⟨getMap_setMap_self _ _ _, by rw [← h1]⟩
  · intro s uid hall e he
    unfold list_user_books at he
    obtain ⟨r, hrmem, hre⟩ := List.mem_filterMap.mp he
    have hrv : r ∈ valuesMap s.rentals := (List.mem_filter.mp hrmem).1
    obtain ⟨p, hp, hpr⟩ := List.mem_map.mp hrv
    cases hbk : getMap s.books r.book_id with
    | none => rw [hbk] at hre; exact absurd hre (by simp)
    | some b =>
      rw [hbk] at hre
      have : e.rental_id = r.rental_id := by
        cases hre; rfl
      rw [this, ← hpr]
      exact hall p hp

/-- Witness for C10: alice's rent in the scenario stores a record with a
null rental identifier, and her listing in stS1 shows it as null. -/
theorem C10_rental_id_absent_witness :
    (getMap stS1.rentals "ra1" = some ⟨"alice", "123", 10, none, none⟩ ∧
      ("ra1" : String) = "ra1") ∧
    (∀ e ∈ list_user_books stS1 "alice", e.rental_id = none) :=
  ⟨by
    have h := C10_rental_id_absent.1 stScenario "123" "alice" "ra1" 10
      ⟨"Book rented successfully", "ra1", { bk123 with available_copies := 1 }⟩ stS1 (by decide)
    exact ⟨h.1, h.2⟩,
   C10_rental_id_absent.2 stS1 "alice" (by decide)⟩

/-!
The availability invariant.  The inductive strengthening Inv adds to the
claimed bounds the accounting fact that available copies plus outstanding
rentals of a book never exceed its total copies.
-/

theorem cntR_nonneg (r : Rental) (bk : String) : 0 ≤ cntR r bk := by
  unfold cntR; split <;> simp

theorem outCount_nonneg (rs : List (String × Rental)) (bk : String) :
    0 ≤ outCount rs bk := by
  induction rs with
  | nil => simp [outCount]
  | cons p rest ih =>
    obtain ⟨k, r⟩ := p
    simp only [outCount]
    exact add_nonneg (cntR_nonneg r bk) ih

theorem outCount_append (rs : List (String × Rental)) (k : String) (r : Rental)
    (bk : String) : outCount (rs ++ [(k, r)]) bk = outCount rs bk + cntR r bk := by
  induction rs with
  | nil => simp [outCount]
  | cons p rest ih =>
    obtain ⟨k1, r1⟩ := p
    show cntR r1 bk + outCount (rest ++ [(k, r)]) bk =
      (cntR r1 bk + outCount rest bk) + cntR r bk
    rw [ih]
    ring

theorem outCount_setMap (rs : List (String × Rental)) (k : String) (r r1 : Rental)
    (bk : String) (h : getMap rs k = some r) :
    outCount (setMap rs k r1) bk + cntR r bk = outCount rs bk + cntR r1 bk := by
  induction rs with
  | nil => simp [getMap] at h
  | cons p rest ih =>
    obtain ⟨k1, v1⟩ := p
    by_cases hk : k1 = k
    · subst hk
      simp [getMap] at h
      subst h
      simp only [setMap, if_pos rfl, outCount]
      ring
    · simp [getMap, hk] at h
      have := ih h
      simp only [setMap, if_neg hk, outCount]
      omega

theorem Inv_of_wellFormedInit (s : St) (h : WellFormedInit s) : Inv s := by
  obtain ⟨hr, hbooks⟩ := h
  intro k b hb
  have hkb := hbooks k b hb
  rw [hr]
  simp only [outCount]
  exact ⟨hkb.1, by have := hkb.2; omega⟩

theorem Inv_rent (s : St) (bid uid rid : String) (t : Nat) (hInv : Inv s) :
    Inv (rent_book s bid uid rid t).2 := by
  cases hb : getMap s.books bid with
  | none => simpa [rent_book, hb] using hInv
  | some b =>
    by_cases hav : b.available_copies ≤ 0
    · simpa [rent_book, hb, hav] using hInv
    · by_cases huh : user_has_book s.rentals uid bid = true
      · simpa [rent_book, hb, hav, huh] using hInv
      · have hstate : (rent_book s bid uid rid t).2 =
            ⟨setMap s.books bid { b with available_copies := b.available_copies - 1 },
             setMap s.rentals rid ⟨uid, bid, t, none, none⟩⟩ := by
          simp only [rent_book, hb]
          rw [if_neg hav, if_neg huh]
        intro k bk hk
        rw [hstate] at hk ⊢
        simp only at hk ⊢
        by_cases hkb : bid = k
        · subst hkb
          rw [getMap_setMap_self] at hk
          injection hk with hk
          subst hk
          obtain ⟨h0, hsum⟩ := hInv bid b hb
          have hc1 : cntR ⟨uid, bid, t, none, none⟩ bid = 1 := by simp [cntR]
          simp only []
          cases hfr : getMap s.rentals rid with
          | none =>
            rw [setMap_of_getMap_none _ _ _ hfr, outCount_append, hc1]
            constructor <;> [omega; omega]
          | some r0 =>
            have hoc := outCount_setMap s.rentals rid r0 ⟨uid, bid, t, none, none⟩ bid hfr
            have hnn := cntR_nonneg r0 bid
            rw [hc1] at hoc
            constructor <;> [omega; omega]
        · rw [getMap_setMap_ne _ _ _ _ hkb] at hk
          obtain ⟨h0, hsum⟩ := hInv k bk hk
          have hc1 : cntR ⟨uid, bid, t, none, none⟩ k = 0 := by simp [cntR, hkb]
          cases hfr : getMap s.rentals rid with
          | none =>
            rw [setMap_of_getMap_none _ _ _ hfr, outCount_append, hc1]
            constructor <;> omega
          | some r0 =>
            have hoc := outCount_setMap s.rentals rid r0 ⟨uid, bid, t, none, none⟩ k hfr
            have hnn := cntR_nonneg r0 k
            rw [hc1] at hoc
            constructor <;> omega

theorem Inv_return (s : St) (rid uid : String) (t : Nat) (hInv : Inv s) :
    Inv (return_book s rid uid t).2 := by
  cases hr : getMap s.rentals rid with
  | none => simpa [return_book, hr] using hInv
  | some r =>
    by_cases hu : r.user_id = uid
    · cases hret : r.returned_at with
      | some v => simpa [return_book, hr, hu, hret] using hInv
      | none =>
        cases hb : getMap s.books r.book_id with
        | none => simpa [return_book, hr, hu, hret, hb] using hInv
        | some b =>
          have hstate : (return_book s rid uid t).2 =
              ⟨setMap s.books r.book_id
                 { b with available_copies := b.available_copies + 1 },
               setMap s.rentals rid { r with returned_at := some t }⟩ := by
            simp [return_book, hr, hu, hret, hb]
          intro k bk hk
          rw [hstate] at hk ⊢
          simp only at hk ⊢
          have hoc := outCount_setMap s.rentals rid r { r with returned_at := some t } k hr
          have hc2 : cntR { r with returned_at := some t } k = 0 := by simp [cntR]
          rw [hc2] at hoc
          by_cases hkb : r.book_id = k
          · subst hkb
            rw [getMap_setMap_self] at hk
            injection hk with hk
            subst hk
            obtain ⟨h0, hsum⟩ := hInv r.book_id b hb
            have hc1 : cntR r r.book_id = 1 := by simp [cntR, hret]
            rw [hc1] at hoc
            dsimp only
            constructor <;> omega
          · rw [getMap_setMap_ne _ _ _ _ hkb] at hk
            obtain ⟨h0, hsum⟩ := hInv k bk hk
            have hc1 : cntR r k = 0 := by simp [cntR, hkb]
            rw [hc1] at hoc
            constructor <;> omega
    · simpa [return_book, hr, hu] using hInv

theorem Inv_applyOp (s : St) (op : Op) (hInv : Inv s) : Inv (applyOp s op) := by
  cases op with
  | listBooks => exact hInv
  | displayDetails _ => exact hInv
  | rentBook bid uid rid t => exact Inv_rent s bid uid rid t hInv
  | listUserBooks _ => exact hInv
  | returnBook rid uid t => exact Inv_return s rid uid t hInv

theorem Inv_run (s : St) (ops : List Op) (hInv : Inv s) : Inv (run s ops) := by
  induction ops generalizing s with
  | nil => exact hInv
  | cons op ops ih => exact ih _ (Inv_applyOp s op hInv)

/-- C6: from any well-formed initial state (empty ledger, every book
with 0 <= available_copies <= total_copies), every state reachable by a
sequence of the five operations keeps 0 <= available_copies <=
total_copies for every book in the catalog. -/
theorem C6_invariant_reachable :
    ∀ (s0 : St) (ops : List Op), WellFormedInit s0 →
      ∀ k b, getMap (run s0 ops).books k = some b →
        0 ≤ b.available_copies ∧ b.available_copies ≤ b.total_copies := by
  intro s0 ops h0 k b hb
  obtain ⟨h1, h2⟩ := Inv_run s0 ops (Inv_of_wellFormedInit s0 h0) k b hb
  have h3 := outCount_nonneg (run s0 ops).rentals k
  exact ⟨h1, by omega⟩

/-- Witness for C6: after alice and bob both rent "123", the book sits
at 0 available of 2 total, inside the claimed bounds. -/
theorem C6_invariant_reachable_witness :
    WellFormedInit stScenario ∧
    (0 ≤ ({ bk123 with available_copies := 0 } : Book).available_copies ∧
      ({ bk123 with available_copies := 0 } : Book).available_copies ≤
        ({ bk123 with available_copies := 0 } : Book).total_copies) := by
  have hwf : WellFormedInit stScenario := by
    refine ⟨rfl, ?_⟩
    intro k b hb
    by_cases h : ("123" : String) = k
    · subst h
      simp [stScenario, getMap] at hb
      subst hb
      decide
    · simp [stScenario, getMap, h] at hb
  exact ⟨hwf,
    C6_invariant_reachable stScenario
      [Op.rentBook "123" "alice" "ra1" 10, Op.rentBook "123" "bob" "rb1" 12] hwf
      "123" { bk123 with available_copies := 0 } (by decide)⟩

end LibraryAPI
